import Mathlib

/-!
Verification of the agentic podcast workflow orchestration engine.

Shallow embedding of the Python sources:
- `open_notebook/domain/agentic_podcast.py` (data model and record operations)
- `open_notebook/graphs/agentic_podcast.py` (graph engine: director stage,
  fan-out of segment writers, accumulation, join/commit)
- `open_notebook/agents/writer.py` (segment sizing and writer output shaping)
- `api/agentic_podcast_service.py` (service layer: creation validation,
  transcript guard)

External collaborators (the generation capability and the record store) are
modelled as oracles: a director result, a per-segment generation result, and
direct state passing for the store (the engine is the single writer during a
run, so a `get` after a `save` returns the saved record). Python dict storage
of typed outputs (`model_dump` / reparse) round-trips, so records hold the
typed values directly.
-/

/-- Segment size literal, from `SegmentSize = Literal["short", "medium", "long"]`. -/
inductive SegmentSize where
  | short
  | medium
  | long
deriving DecidableEq, Repr

/-- Workflow stage literal, from `WorkflowStage = Literal["director", "writer", "completed", "failed"]`. -/
inductive WorkflowStage where
  | director
  | writer
  | completed
  | failed
deriving DecidableEq, Repr

/-- Workflow status literal, from `WorkflowStatus = Literal["pending", "in_progress", "completed", "failed"]`. -/
inductive WorkflowStatus where
  | pending
  | in_progress
  | completed
  | failed
deriving DecidableEq, Repr

/-- Rendering of a status, as interpolated into the service error message. -/
def WorkflowStatus.render : WorkflowStatus → String
  | .pending => "pending"
  | .in_progress => "in_progress"
  | .completed => "completed"
  | .failed => "failed"

/-- One planned segment, from `class OutlineSegment` in `domain/agentic_podcast.py`. -/
structure OutlineSegment where
  name : String
  description : String
  size : SegmentSize
deriving DecidableEq, Repr

/-- Director output, from `class DirectorOutput`. -/
structure DirectorOutput where
  reasoning : String
  segments : List OutlineSegment
  num_segments : Nat
deriving DecidableEq, Repr

/-- One line of dialogue, from `class TranscriptLine`. -/
structure TranscriptLine where
  speaker : String
  dialogue : String
deriving DecidableEq, Repr

/-- Metadata the writer agent attaches to its output (`writer.py` lines 101-104). -/
structure WriterMetadata where
  segment_size : SegmentSize
  num_turns : Nat
deriving DecidableEq, Repr

/-- Writer output for one segment, from `class WriterOutput`. -/
structure WriterOutput where
  segment_index : Nat
  segment_name : String
  transcript : List TranscriptLine
  metadata : Option WriterMetadata
deriving DecidableEq, Repr

/-- The persisted workflow record, from `class AgenticPodcastWorkflow(ObjectModel)`.
The storage-assigned opaque id and timestamps live in the external `ObjectModel`
base and are not part of any transition, so they are omitted. -/
structure AgenticPodcastWorkflow where
  name : String
  content : Option String
  notebook_id : Option String
  episode_profile_name : String
  speaker_profile_name : String
  briefing : String
  current_stage : WorkflowStage
  status : WorkflowStatus
  director_output : Option DirectorOutput
  writer_outputs : Option (List WriterOutput)
  error_message : Option String
deriving DecidableEq, Repr

/-- Accessor from `get_writer_outputs`: Python returns `[]` when the stored field
is `None` (an empty stored list is also falsy and yields `[]`, which coincides
with returning it). -/
def AgenticPodcastWorkflow.get_writer_outputs (w : AgenticPodcastWorkflow) : List WriterOutput :=
  match w.writer_outputs with
  | some l => l
  | none => []

/-- Setter from `set_writer_outputs`. -/
def AgenticPodcastWorkflow.set_writer_outputs (w : AgenticPodcastWorkflow)
    (outputs : List WriterOutput) : AgenticPodcastWorkflow :=
  { w with writer_outputs := some outputs }

/-- Setter from `set_director_output`. -/
def AgenticPodcastWorkflow.set_director_output (w : AgenticPodcastWorkflow)
    (output : DirectorOutput) : AgenticPodcastWorkflow :=
  { w with director_output := some output }

/-- Key order used by Python `sorted(writer_outputs, key=lambda x: x.segment_index)`. -/
def byIndex (a b : WriterOutput) : Prop :=
  a.segment_index ≤ b.segment_index

instance : DecidableRel byIndex := fun a b => Nat.decLe a.segment_index b.segment_index

instance : IsTotal WriterOutput byIndex := ⟨fun a b => Nat.le_total a.segment_index b.segment_index⟩

instance : IsTrans WriterOutput byIndex := ⟨fun _ _ _ => Nat.le_trans⟩

/-- Embedding of Python stable `sorted(..., key=lambda x: x.segment_index)`. -/
def sortByIndex (l : List WriterOutput) : List WriterOutput :=
  List.insertionSort byIndex l

/-- Combined transcript from `get_full_transcript`: sort stored outputs by
segment index, then concatenate their transcripts. -/
def AgenticPodcastWorkflow.get_full_transcript (w : AgenticPodcastWorkflow) : List TranscriptLine :=
  (sortByIndex w.get_writer_outputs).flatMap (fun o => o.transcript)

/-- Transition from `mark_completed`. -/
def AgenticPodcastWorkflow.mark_completed (w : AgenticPodcastWorkflow) : AgenticPodcastWorkflow :=
  { w with status := .completed, current_stage := .completed }

/-- Transition from `mark_failed`. -/
def AgenticPodcastWorkflow.mark_failed (w : AgenticPodcastWorkflow)
    (error_message : String) : AgenticPodcastWorkflow :=
  { w with status := .failed, current_stage := .failed, error_message := some error_message }

/-- Transition from `update_stage`. -/
def AgenticPodcastWorkflow.update_stage (w : AgenticPodcastWorkflow)
    (stage : WorkflowStage) (status : WorkflowStatus) : AgenticPodcastWorkflow :=
  { w with current_stage := stage, status := status }

/-! ## Segment sizing (`agents/writer.py` lines 41-47) -/

/-- Target turn count computed by `writer_agent` from the segment size and the
`min_turns` / `max_turns` parameters (defaults 10 and 30). Python ints are
unbounded, so `Int`. -/
def target_turns (size : SegmentSize) (min_turns : Int) (max_turns : Int) : Int :=
  match size with
  | .short => min (max min_turns 8) 15
  | .medium => min (max min_turns 15) 25
  | .long => min (max min_turns 20) max_turns

/-- Modelled from the spec: `clamp(x, lo, hi)` as used in the sizing table of §4.2. -/
def clampSpec (x lo hi : Int) : Int :=
  min (max x lo) hi

/-! ## Writer agent (`agents/writer.py`) -/

/-- Parsed structured generation result, from `class SegmentTranscript`. -/
structure SegmentTranscript where
  transcript : List TranscriptLine
deriving DecidableEq, Repr

/-- Embedding of `writer_agent`: the generation call (prompt rendering, model
invocation, parsing) is the external capability, supplied as `genResult`; on
success the agent wraps the parsed transcript into a `WriterOutput` carrying
the engine-assigned `segment_index`, the segment name, and metadata; a failed
generation re-raises. The continuity context `previous_segments` and the
computed target turn count reach only the prompt, hence only the oracle. -/
def writer_agent (segment : OutlineSegment) (segment_index : Nat)
    (previous_segments : Option (List WriterOutput))
    (genResult : Except String SegmentTranscript)
    (min_turns : Int := 10) (max_turns : Int := 30) : Except String WriterOutput :=
  let _target := target_turns segment.size min_turns max_turns
  let _context := previous_segments
  match genResult with
  | .ok parsed =>
      .ok { segment_index := segment_index
            segment_name := segment.name
            transcript := parsed.transcript
            metadata := some { segment_size := segment.size
                               num_turns := parsed.transcript.length } }
  | .error e => .error e

/-! ## Graph engine (`graphs/agentic_podcast.py`) -/

/-- Continuity context computed inside `write_segment` (lines 183-199): read the
workflow snapshot from storage, keep stored outputs with a smaller segment
index, and pass them to the writer — or `None` when that list is empty
(`previous_segments if previous_segments else None`). -/
def previous_segments_arg (workflow : AgenticPodcastWorkflow) (segment_index : Nat) :
    Option (List WriterOutput) :=
  let previous_outputs := workflow.get_writer_outputs
  let previous_segments := previous_outputs.filter (fun w => w.segment_index < segment_index)
  if previous_segments.isEmpty then none else some previous_segments

/-- Partial state update returned by one writer task: the two `Annotated`
accumulator channels of `AgenticPodcastState` (`writer_outputs` and `errors`,
both reduced with `operator.add`). -/
structure WriteDelta where
  writer_outputs : List WriterOutput
  errors : List String
deriving DecidableEq, Repr

/-- Embedding of the `write_segment` node: on success it contributes its single
`WriterOutput`, on failure it contributes one tagged error string
(`f"Writer agent failed for segment {segment_index}: {str(e)}"`). -/
def write_segment (workflow : AgenticPodcastWorkflow) (segment : OutlineSegment)
    (segment_index : Nat) (genResult : Except String SegmentTranscript) : WriteDelta :=
  match writer_agent segment segment_index (previous_segments_arg workflow segment_index)
      genResult with
  | .ok writer_output => { writer_outputs := [writer_output], errors := [] }
  | .error e =>
      { writer_outputs := []
        errors := ["Writer agent failed for segment " ++ toString segment_index ++ ": " ++ e] }

/-- The `operator.add` reducer applied channel-wise when one task's update is
folded into the accumulated state: list concatenation on both channels. -/
def merge_delta (a b : WriteDelta) : WriteDelta :=
  { writer_outputs := a.writer_outputs ++ b.writer_outputs
    errors := a.errors ++ b.errors }

/-- Accumulated state at the join: the task updates folded, in completion
order, into the initially empty channels. -/
def accumulate (deltas : List WriteDelta) : WriteDelta :=
  deltas.foldl merge_delta { writer_outputs := [], errors := [] }

/-- Task updates in plan order, starting at index `i0`: mirrors
`for i, segment in enumerate(segments)` — task `i` runs `write_segment` on the
shared pre-write snapshot with generation oracle `gen i`. -/
def segment_deltas_from (workflow : AgenticPodcastWorkflow)
    (gen : Nat → Except String SegmentTranscript) (i0 : Nat) :
    List OutlineSegment → List WriteDelta
  | [] => []
  | segment :: rest =>
      write_segment workflow segment i0 (gen i0) ::
        segment_deltas_from workflow gen (i0 + 1) rest

/-- Task updates of one fan-out, in plan order. -/
def segment_deltas (workflow : AgenticPodcastWorkflow)
    (gen : Nat → Except String SegmentTranscript)
    (segments : List OutlineSegment) : List WriteDelta :=
  segment_deltas_from workflow gen 0 segments

/-- One `Send` payload built by `trigger_segment_writers` (lines 143-160); the
per-run constant fields (workflow id, content, briefing, speakers, outline,
model) are threaded unchanged and omitted here. `previous_segments` is the
literal `[]` placed in every payload. -/
structure SendPayload where
  segment : OutlineSegment
  segment_index : Nat
  previous_segments : List WriterOutput
deriving DecidableEq, Repr

/-- Payloads built by the `enumerate` loop of `trigger_segment_writers`,
starting at index `i0`. -/
def sends_from (i0 : Nat) : List OutlineSegment → List SendPayload
  | [] => []
  | segment :: rest =>
      { segment := segment, segment_index := i0, previous_segments := [] } ::
        sends_from (i0 + 1) rest

/-- Embedding of `trigger_segment_writers`: no fan-out without a director
output, otherwise one `Send` per planned segment, indices assigned by
enumeration from 0. -/
def trigger_segment_writers (director_output : Option DirectorOutput) : List SendPayload :=
  match director_output with
  | none => []
  | some dout => sends_from 0 dout.segments

/-- Embedding of the `run_director` node: stage is first set to
`(director, in_progress)` and persisted; on success the director output is
stored on the record and returned for the state, on failure the record is
marked failed with the tagged message and no director output enters the
state. -/
def run_director (workflow : AgenticPodcastWorkflow)
    (directorResult : Except String DirectorOutput) :
    AgenticPodcastWorkflow × Option DirectorOutput :=
  let wf := workflow.update_stage .director .in_progress
  match directorResult with
  | .ok director_output => (wf.set_director_output director_output, some director_output)
  | .error e => (wf.mark_failed ("Director agent failed: " ++ e), none)

/-- Embedding of the `save_workflow` node (join/commit): with any accumulated
error the record is failed with the `"; "`-joined error list and nothing else
is written; with an empty output list it is failed with a fixed message;
otherwise the outputs are sorted by segment index, stored, and the record is
completed. -/
def save_workflow (workflow : AgenticPodcastWorkflow) (errors : List String)
    (writer_outputs : List WriterOutput) : AgenticPodcastWorkflow :=
  if errors ≠ [] then
    workflow.mark_failed (String.intercalate "; " errors)
  else if writer_outputs = [] then
    workflow.mark_failed "No writer outputs generated"
  else
    (workflow.set_writer_outputs (sortByIndex writer_outputs)).mark_completed

/-- Outcome of one engine run: the final persisted record and the writer tasks
that were launched. -/
structure RunOutcome where
  final : AgenticPodcastWorkflow
  launched : List SendPayload
deriving DecidableEq, Repr

/-- One run of the compiled graph on a workflow record: director node, then the
conditional fan-out. `save_workflow` is reachable only through the edge from
`write_segment`, so whenever the conditional edge dispatches no `Send` — the
director failed, or it succeeded with an empty segment list — no writer task
and no join node ever run and the record stays as the director node left it.
Otherwise all writer tasks run from the post-director snapshot, their updates
accumulate in completion order (`arrival`), and `save_workflow` commits.
Theorems quantify `arrival` over all permutations of the plan-order task
updates. -/
def run_engine (workflow : AgenticPodcastWorkflow)
    (directorResult : Except String DirectorOutput)
    (arrival : List WriteDelta) : RunOutcome :=
  let step := run_director workflow directorResult
  match step.2 with
  | none => { final := step.1, launched := [] }
  | some dout =>
      match trigger_segment_writers (some dout) with
      | [] => { final := step.1, launched := [] }
      | send :: sends =>
          let acc := accumulate arrival
          { final := save_workflow step.1 acc.errors acc.writer_outputs
            launched := send :: sends }

/-! ## Service layer (`api/agentic_podcast_service.py`) -/

/-- Python truthiness of an `Optional[str]`: falsy when `None` or empty. -/
def truthyStr : Option String → Bool
  | none => false
  | some s => !s.isEmpty

/-- Creation request, from `class AgenticWorkflowRequest`. -/
structure AgenticWorkflowRequest where
  episode_profile : String
  episode_name : String
  content : Option String
  notebook_id : Option String
  briefing_suffix : Option String
  num_segments : Option Nat
deriving DecidableEq, Repr

/-- Episode profile fields read by the service (`domain/podcast.py` is external;
only the consumed fields are modelled). -/
structure EpisodeProfile where
  name : String
  speaker_config : String
  default_briefing : String
  num_segments : Nat
deriving DecidableEq, Repr

/-- Speaker profile fields read by the service. -/
structure SpeakerProfile where
  name : String
deriving DecidableEq, Repr

/-- Briefing assembly from `_build_briefing`: base text prefixed with the
episode name and stripped; a suffix is appended only when it is truthy and
non-blank after stripping (non-blank after stripping implies truthy). -/
def build_briefing (episode_name : String) (base_briefing : String)
    (briefing_suffix : Option String) : String :=
  let briefing := ("Episode: " ++ episode_name ++ "\n\n" ++ base_briefing).trim
  match briefing_suffix with
  | some s =>
      if !s.trim.isEmpty then
        briefing ++ "\n\nAdditional instructions:\n" ++ s.trim
      else briefing
  | none => briefing

/-- Content selection in `create_workflow` (lines 165-177): direct content when
truthy, else the resolved notebook content (the notebook gather is the
external content resolver, supplied as `notebook_content`), else the
validation error raised as HTTP 400. -/
def resolve_content (request : AgenticWorkflowRequest) (notebook_content : String) :
    Except String String :=
  if truthyStr request.content then .ok (request.content.getD "")
  else if truthyStr request.notebook_id then .ok notebook_content
  else .error "Either 'content' or 'notebook_id' must be provided"

/-- Embedding of `create_workflow` up to the point the record is created and
first saved (lines 147-198), before the engine run is started: profile
lookups, content validation, briefing assembly, record construction. The
first component lists the records persisted during this prefix — empty on
every error path, since each raise precedes the record construction. -/
def create_workflow (request : AgenticWorkflowRequest)
    (episode_profile : Option EpisodeProfile) (speaker_profile : Option SpeakerProfile)
    (notebook_content : String) :
    List AgenticPodcastWorkflow × Except String AgenticPodcastWorkflow :=
  match episode_profile with
  | none => ([], .error ("Episode profile '" ++ request.episode_profile ++ "' not found"))
  | some ep =>
      match speaker_profile with
      | none => ([], .error ("Speaker profile '" ++ ep.speaker_config ++ "' not found"))
      | some sp =>
          match resolve_content request notebook_content with
          | .error e => ([], .error e)
          | .ok content =>
              let record : AgenticPodcastWorkflow :=
                { name := request.episode_name
                  content := some content
                  notebook_id := request.notebook_id
                  episode_profile_name := ep.name
                  speaker_profile_name := sp.name
                  briefing := build_briefing request.episode_name ep.default_briefing
                    request.briefing_suffix
                  current_stage := .director
                  status := .pending
                  director_output := none
                  writer_outputs := none
                  error_message := none }
              ([record], .ok record)

/-- Transcript response, from `class TranscriptResponse` (the dialogue dicts
are `(speaker, dialogue)` pairs). -/
structure TranscriptResponse where
  episode_name : String
  transcript : List (String × String)
  total_turns : Nat
deriving DecidableEq, Repr

/-- Embedding of `get_transcript` (lines 280-303): missing workflow is a 404;
a workflow whose status is not `completed` is rejected with the HTTP 400
message before any transcript is read; otherwise the combined transcript is
returned. -/
def get_transcript (workflow : Option AgenticPodcastWorkflow) :
    Except String TranscriptResponse :=
  match workflow with
  | none => .error "Workflow not found"
  | some wf =>
      if wf.status ≠ .completed then
        .error ("Workflow is not completed (status: " ++ wf.status.render ++ ")")
      else
        let transcript := wf.get_full_transcript
        .ok { episode_name := wf.name
              transcript := transcript.map (fun line => (line.speaker, line.dialogue))
              total_turns := transcript.length }

/-! ## Lemmas about the accumulator -/

/-- Folding the channel-wise reducer concatenates the channels. -/
theorem foldl_merge_delta (l : List WriteDelta) (a : WriteDelta) :
    l.foldl merge_delta a =
      { writer_outputs := a.writer_outputs ++ l.flatMap (fun d => d.writer_outputs)
        errors := a.errors ++ l.flatMap (fun d => d.errors) } := by
  induction l generalizing a with
  | nil => simp
  | cons d rest ih => simp [ih, merge_delta]

/-- The accumulated state is the concatenation of the task updates in
completion order. -/
theorem accumulate_eq (l : List WriteDelta) :
    accumulate l =
      { writer_outputs := l.flatMap (fun d => d.writer_outputs)
        errors := l.flatMap (fun d => d.errors) } := by
  simp [accumulate, foldl_merge_delta]

/-- A successful writer task contributes exactly its output. -/
theorem write_segment_ok (wf : AgenticPodcastWorkflow) (seg : OutlineSegment)
    (i : Nat) (t : SegmentTranscript) :
    write_segment wf seg i (Except.ok t) =
      { writer_outputs := [{ segment_index := i
                             segment_name := seg.name
                             transcript := t.transcript
                             metadata := some { segment_size := seg.size
                                                num_turns := t.transcript.length } }]
        errors := [] } := rfl

/-- A failed writer task contributes exactly its tagged error. -/
theorem write_segment_error (wf : AgenticPodcastWorkflow) (seg : OutlineSegment)
    (i : Nat) (e : String) :
    write_segment wf seg i (Except.error e) =
      { writer_outputs := []
        errors := ["Writer agent failed for segment " ++ toString i ++ ": " ++ e] } := rfl

/-- Every task contributes exactly one item across the two channels, so the
channel lengths sum to the number of planned segments. -/
theorem segment_deltas_length_split (wf : AgenticPodcastWorkflow)
    (gen : Nat → Except String SegmentTranscript) :
    ∀ (segs : List OutlineSegment) (i0 : Nat),
    ((segment_deltas_from wf gen i0 segs).flatMap (fun d => d.writer_outputs)).length +
      ((segment_deltas_from wf gen i0 segs).flatMap (fun d => d.errors)).length =
      segs.length := by
  intro segs
  induction segs with
  | nil => intro i0; simp [segment_deltas_from]
  | cons seg rest ih =>
      intro i0
      have h := ih (i0 + 1)
      cases hg : gen i0 with
      | ok t =>
          simp only [segment_deltas_from, hg, write_segment_ok, List.flatMap_cons,
            List.length_append, List.length_singleton, List.length_cons, List.length_nil]
          omega
      | error e =>
          simp only [segment_deltas_from, hg, write_segment_error, List.flatMap_cons,
            List.length_append, List.length_singleton, List.length_cons, List.length_nil]
          omega

/-- Segment indices of the successful outputs of one fan-out, in plan order. -/
def outputKeys (l : List WriteDelta) : List Nat :=
  (l.flatMap (fun d => d.writer_outputs)).map (fun o => o.segment_index)

/-- The success keys of a fan-out starting at `i0` are strictly increasing and
bounded below by `i0`. -/
theorem outputKeys_strict_mono (wf : AgenticPodcastWorkflow)
    (gen : Nat → Except String SegmentTranscript) :
    ∀ (segs : List OutlineSegment) (i0 : Nat),
    List.Pairwise (· < ·) (outputKeys (segment_deltas_from wf gen i0 segs)) ∧
      ∀ x ∈ outputKeys (segment_deltas_from wf gen i0 segs), i0 ≤ x := by
  intro segs
  induction segs with
  | nil => intro i0; simp [outputKeys, segment_deltas_from]
  | cons seg rest ih =>
      intro i0
      obtain ⟨hp, hb⟩ := ih (i0 + 1)
      cases hg : gen i0 with
      | ok t =>
          simp only [outputKeys, segment_deltas_from, hg, write_segment_ok,
            List.flatMap_cons, List.map_append, List.map_cons, List.map_nil,
            List.singleton_append, List.pairwise_cons, List.mem_cons] at hp hb ⊢
          refine ⟨⟨fun x hx => ?_, hp⟩, ?_⟩
          · exact Nat.lt_of_lt_of_le (Nat.lt_succ_self i0) (hb x hx)
          · rintro x (rfl | hx)
            · exact Nat.le_refl _
            · exact Nat.le_of_lt (Nat.lt_of_lt_of_le (Nat.lt_succ_self i0) (hb x hx))
      | error e =>
          simp only [outputKeys, segment_deltas_from, hg, write_segment_error,
            List.flatMap_cons, List.map_append, List.map_nil, List.nil_append] at hp hb ⊢
          exact ⟨hp, fun x hx => Nat.le_of_lt (Nat.lt_of_lt_of_le (Nat.lt_succ_self i0) (hb x hx))⟩

/-- When every generation in the window succeeds, the fan-out accumulates no
error and its success keys are exactly the consecutive indices. -/
theorem segment_deltas_all_ok (wf : AgenticPodcastWorkflow)
    (gen : Nat → Except String SegmentTranscript) :
    ∀ (segs : List OutlineSegment) (i0 : Nat),
    (∀ i, i0 ≤ i → i < i0 + segs.length → ∃ t, gen i = Except.ok t) →
    (segment_deltas_from wf gen i0 segs).flatMap (fun d => d.errors) = [] ∧
      outputKeys (segment_deltas_from wf gen i0 segs) = List.range' i0 segs.length := by
  intro segs
  induction segs with
  | nil => intro i0 _; simp [outputKeys, segment_deltas_from]
  | cons seg rest ih =>
      intro i0 hok
      obtain ⟨t, ht⟩ := hok i0 (Nat.le_refl i0) (by simp)
      have hrest := ih (i0 + 1) (fun i h1 h2 => hok i (Nat.le_of_succ_le h1)
        (by simp only [List.length_cons]; omega))
      simp only [outputKeys, segment_deltas_from, ht, write_segment_ok, List.flatMap_cons,
        List.map_append, List.map_cons, List.map_nil, List.singleton_append,
        List.nil_append, List.length_cons, List.range'_succ] at hrest ⊢
      exact ⟨hrest.1, by rw [hrest.2]⟩

/-! ## Lemmas about the commit-time sort -/

/-- Strict version of the commit-sort key order. -/
def byIndexLt (a b : WriterOutput) : Prop :=
  a.segment_index < b.segment_index

instance : IsAntisymm WriterOutput byIndexLt :=
  ⟨fun _ _ h1 h2 => absurd h2 (Nat.lt_asymm h1)⟩

/-- A key-sorted list with pairwise-distinct keys is strictly key-sorted. -/
theorem pairwise_lt_of_sorted_nodup {l : List WriterOutput}
    (hs : List.Sorted byIndex l)
    (hn : (l.map (fun o => o.segment_index)).Nodup) :
    List.Pairwise byIndexLt l := by
  have hne : List.Pairwise (fun a b : WriterOutput => a.segment_index ≠ b.segment_index) l :=
    (List.pairwise_map).mp hn
  exact (hs.and hne).imp (fun h => Nat.lt_of_le_of_ne h.1 h.2)

/-- A strictly key-sorted list is unchanged by the commit sort. -/
theorem sortByIndex_eq_self {l : List WriterOutput}
    (h : List.Pairwise byIndexLt l) : sortByIndex l = l :=
  List.Sorted.insertionSort_eq (h.imp (fun hab => Nat.le_of_lt hab))

/-- With pairwise-distinct keys, the commit sort is invariant under
permutation: the committed order never depends on completion order. -/
theorem sortByIndex_eq_of_perm {l₁ l₂ : List WriterOutput}
    (hp : List.Perm l₁ l₂)
    (hn : (l₂.map (fun o => o.segment_index)).Nodup) :
    sortByIndex l₁ = sortByIndex l₂ := by
  have hps : List.Perm (sortByIndex l₁) (sortByIndex l₂) :=
    (List.perm_insertionSort byIndex l₁).trans
      (hp.trans (List.perm_insertionSort byIndex l₂).symm)
  have hn₂ : ((sortByIndex l₂).map (fun o => o.segment_index)).Nodup :=
    (((List.perm_insertionSort byIndex l₂).map (fun o => o.segment_index)).nodup_iff).mpr hn
  have hn₁ : ((sortByIndex l₁).map (fun o => o.segment_index)).Nodup :=
    ((hps.map (fun o => o.segment_index)).nodup_iff).mpr hn₂
  exact List.eq_of_perm_of_sorted (r := byIndexLt) hps
    (pairwise_lt_of_sorted_nodup (List.sorted_insertionSort byIndex l₁) hn₁)
    (pairwise_lt_of_sorted_nodup (List.sorted_insertionSort byIndex l₂) hn₂)

/-! ## Lemmas about the fan-out payloads and the run -/

/-- The enumerated payload indices are the consecutive indices from `i0`. -/
theorem sends_from_keys :
    ∀ (segs : List OutlineSegment) (i0 : Nat),
    (sends_from i0 segs).map (fun p => p.segment_index) = List.range' i0 segs.length := by
  intro segs
  induction segs with
  | nil => intro i0; simp [sends_from]
  | cons seg rest ih =>
      intro i0
      simp [sends_from, ih (i0 + 1), List.range'_succ]

/-- Every fan-out payload carries the empty previous-segments placeholder. -/
theorem sends_from_previous_segments :
    ∀ (segs : List OutlineSegment) (i0 : Nat) (p : SendPayload),
    p ∈ sends_from i0 segs → p.previous_segments = [] := by
  intro segs
  induction segs with
  | nil => intro i0 p hp; simp [sends_from] at hp
  | cons seg rest ih =>
      intro i0 p hp
      rcases (List.mem_cons).mp hp with h | h
      · rw [h]
      · exact ih (i0 + 1) p h

/-- Unfolding one run whose director stage succeeds with an empty plan: zero
`Send`s are dispatched, so the join never fires and the record stays as the
director node left it — stage `director`, status `in_progress`. -/
theorem run_engine_ok_nil (wf0 : AgenticPodcastWorkflow) (dout : DirectorOutput)
    (arrival : List WriteDelta) (h : dout.segments = []) :
    run_engine wf0 (Except.ok dout) arrival =
      { final := (wf0.update_stage .director .in_progress).set_director_output dout
        launched := [] } := by
  obtain ⟨r, segs, n⟩ := dout
  simp only at h
  subst h
  rfl

/-- Unfolding one run whose director stage succeeds with a non-empty plan: the
fan-out dispatches one `Send` per segment and the join commits. -/
theorem run_engine_ok_join (wf0 : AgenticPodcastWorkflow) (dout : DirectorOutput)
    (arrival : List WriteDelta) (h : dout.segments ≠ []) :
    run_engine wf0 (Except.ok dout) arrival =
      { final := save_workflow ((wf0.update_stage .director .in_progress).set_director_output dout)
          (accumulate arrival).errors (accumulate arrival).writer_outputs
        launched := sends_from 0 dout.segments } := by
  obtain ⟨r, segs, n⟩ := dout
  cases segs with
  | nil => exact absurd rfl h
  | cons s rest => rfl

/-- Unfolding one run whose director stage fails. -/
theorem run_engine_error (wf0 : AgenticPodcastWorkflow) (e : String)
    (arrival : List WriteDelta) :
    run_engine wf0 (Except.error e) arrival =
      { final := (wf0.update_stage .director .in_progress).mark_failed
          ("Director agent failed: " ++ e)
        launched := [] } := rfl

/-- The writer tasks of one fan-out starting at `i0` emit outputs carrying
exactly their task's engine-assigned index. -/
theorem segment_deltas_from_get_index (wf : AgenticPodcastWorkflow)
    (gen : Nat → Except String SegmentTranscript) :
    ∀ (segs : List OutlineSegment) (i0 j : Nat)
      (hj : j < (segment_deltas_from wf gen i0 segs).length),
    ∀ o ∈ ((segment_deltas_from wf gen i0 segs).get ⟨j, hj⟩).writer_outputs,
      o.segment_index = i0 + j := by
  intro segs
  induction segs with
  | nil => intro i0 j hj; simp [segment_deltas_from] at hj
  | cons seg rest ih =>
      intro i0 j hj o ho
      match j with
      | 0 =>
          simp only [segment_deltas_from, List.get] at ho
          cases hg : gen i0 with
          | ok t => rw [hg, write_segment_ok] at ho; simp at ho; simp [ho]
          | error e => rw [hg, write_segment_error] at ho; simp at ho
      | j + 1 =>
          simp only [segment_deltas_from, List.get] at ho hj
          have := ih (i0 + 1) j (by
            simp only [segment_deltas_from, List.length_cons] at hj
            omega) o ho
          omega

/-! ## Concrete fixtures -/

/-- A sample dialogue line. -/
def sampleLine : TranscriptLine :=
  { speaker := "Alice", dialogue := "Hello" }

/-- A sample parsed generation result. -/
def sampleTranscript : SegmentTranscript :=
  { transcript := [sampleLine] }

/-- A sample first planned segment. -/
def sampleSeg0 : OutlineSegment :=
  { name := "intro", description := "opening", size := .short }

/-- A sample second planned segment. -/
def sampleSeg1 : OutlineSegment :=
  { name := "analysis", description := "details", size := .medium }

/-- A sample two-segment director output. -/
def sampleDirector : DirectorOutput :=
  { reasoning := "r", segments := [sampleSeg0, sampleSeg1], num_segments := 2 }

/-- A freshly created workflow record, as `create_workflow` builds it. -/
def freshWorkflow : AgenticPodcastWorkflow :=
  { name := "ep", content := some "text", notebook_id := none
    episode_profile_name := "p", speaker_profile_name := "s", briefing := "b"
    current_stage := .director, status := .pending
    director_output := none, writer_outputs := none, error_message := none }

/-- A generation oracle that always succeeds. -/
def genAllOk : Nat → Except String SegmentTranscript :=
  fun _ => Except.ok sampleTranscript

/-- A generation oracle failing exactly for segment index 1. -/
def genFailSecond : Nat → Except String SegmentTranscript :=
  fun i => if i = 1 then Except.error "model call failed" else Except.ok sampleTranscript

/-- Plan-order task updates of the sample run whose second generation fails. -/
def deltasFailSecond : List WriteDelta :=
  segment_deltas ((run_director freshWorkflow (Except.ok sampleDirector)).1)
    genFailSecond sampleDirector.segments

/-- Plan-order task updates of the fully successful sample run. -/
def deltasAllOk : List WriteDelta :=
  segment_deltas ((run_director freshWorkflow (Except.ok sampleDirector)).1)
    genAllOk sampleDirector.segments

/-! ## Claim theorems -/

/-- C3: if the planning capability (director agent) fails, the workflow is
transitioned to stage=failed, status=failed with the error message set and
persisted, and no writing task is ever launched for that run. -/
theorem planning_failure_short_circuit (wf0 : AgenticPodcastWorkflow) (e : String)
    (arrival : List WriteDelta) :
    (run_engine wf0 (Except.error e) arrival).launched = [] ∧
    (run_engine wf0 (Except.error e) arrival).final.current_stage = WorkflowStage.failed ∧
    (run_engine wf0 (Except.error e) arrival).final.status = WorkflowStatus.failed ∧
    (run_engine wf0 (Except.error e) arrival).final.error_message =
      some ("Director agent failed: " ++ e) :=
  ⟨rfl, rfl, rfl, rfl⟩

/-- C4: for every writing task launched within a single run over a freshly
created workflow (no writer outputs persisted at launch), the
previous-segments continuity context computed from the shared pre-write
snapshot is `none`, and every fan-out payload carries the empty
previous-segments placeholder: in parallel mode the writer's continuity
input is always empty. -/
theorem parallel_context_empty (wf0 : AgenticPodcastWorkflow) (dout : DirectorOutput)
    (i : Nat) (arrival : List WriteDelta) (h : wf0.writer_outputs = none) :
    previous_segments_arg ((run_director wf0 (Except.ok dout)).1) i = none ∧
    ∀ p ∈ (run_engine wf0 (Except.ok dout) arrival).launched, p.previous_segments = [] := by
  constructor
  · simp [previous_segments_arg, run_director, AgenticPodcastWorkflow.update_stage,
      AgenticPodcastWorkflow.set_director_output, AgenticPodcastWorkflow.get_writer_outputs, h]
  · intro p hp
    by_cases hk : dout.segments = []
    · rw [run_engine_ok_nil _ _ _ hk] at hp
      simp at hp
    · rw [run_engine_ok_join _ _ _ hk] at hp
      exact sends_from_previous_segments dout.segments 0 p hp

/-- Witness for C4 at a concrete fresh workflow and plan. -/
theorem parallel_context_empty_witness :
    freshWorkflow.writer_outputs = none ∧
    previous_segments_arg ((run_director freshWorkflow (Except.ok sampleDirector)).1) 1 = none :=
  ⟨rfl, (parallel_context_empty freshWorkflow sampleDirector 1 [] rfl).1⟩

/-- C5: the get-transcript operation on a workflow whose status is not
`completed` always returns the "not completed" error and never returns
dialogue data; transcript data is returned only when status is `completed`. -/
theorem transcript_guard (wf : AgenticPodcastWorkflow) :
    (wf.status ≠ WorkflowStatus.completed →
      get_transcript (some wf) =
        Except.error ("Workflow is not completed (status: " ++ wf.status.render ++ ")")) ∧
    (∀ r, get_transcript (some wf) = Except.ok r → wf.status = WorkflowStatus.completed) := by
  constructor
  · intro h
    simp [get_transcript, h]
  · intro r hr
    by_cases h : wf.status = WorkflowStatus.completed
    · exact h
    · simp [get_transcript, h] at hr

/-- A failed workflow that nevertheless holds writer outputs internally. -/
def failedWithOutputs : AgenticPodcastWorkflow :=
  { freshWorkflow with
    status := .failed, current_stage := .failed
    writer_outputs := some [{ segment_index := 0, segment_name := "intro"
                              transcript := [sampleLine], metadata := none }] }

/-- Witness for C5: a failed workflow with internal outputs still gets the
"not completed" error. -/
theorem transcript_guard_witness :
    failedWithOutputs.status ≠ WorkflowStatus.completed ∧
    failedWithOutputs.writer_outputs ≠ none ∧
    get_transcript (some failedWithOutputs) =
      Except.error ("Workflow is not completed (status: " ++
        failedWithOutputs.status.render ++ ")") :=
  ⟨by decide, by decide, (transcript_guard failedWithOutputs).1 (by decide)⟩

/-- C6: the target turn count is a pure function of the size value and the
requested minimum (plus the allowed maximum for `long`): `short` is
clamp(minimum, 8, 15), `medium` is clamp(minimum, 15, 25), `long` is
clamp(minimum, 20, maximum allowed); the short and medium results always lie
in their stated ranges and `long` never exceeds the maximum. -/
theorem segment_sizing_clamp (m maxT : Int) :
    target_turns SegmentSize.short m maxT = clampSpec m 8 15 ∧
    target_turns SegmentSize.medium m maxT = clampSpec m 15 25 ∧
    target_turns SegmentSize.long m maxT = clampSpec m 20 maxT ∧
    8 ≤ target_turns SegmentSize.short m maxT ∧
    target_turns SegmentSize.short m maxT ≤ 15 ∧
    15 ≤ target_turns SegmentSize.medium m maxT ∧
    target_turns SegmentSize.medium m maxT ≤ 25 ∧
    target_turns SegmentSize.long m maxT ≤ maxT := by
  refine ⟨rfl, rfl, rfl, ?_, ?_, ?_, ?_, ?_⟩
  · exact le_min (le_max_right m 8) (by norm_num)
  · exact min_le_right _ _
  · exact le_min (le_max_right m 15) (by norm_num)
  · exact min_le_right _ _
  · exact min_le_right _ _

/-- After every task of one fan-out has terminated, the accumulated success
count and error count sum to the number of planned segments, whatever the
completion order. -/
theorem accumulate_length_split (wf1 : AgenticPodcastWorkflow)
    (gen : Nat → Except String SegmentTranscript) (segs : List OutlineSegment)
    (arrival : List WriteDelta)
    (hperm : List.Perm arrival (segment_deltas wf1 gen segs)) :
    (accumulate arrival).writer_outputs.length + (accumulate arrival).errors.length =
      segs.length := by
  simp only [accumulate_eq]
  rw [(hperm.flatMap_right (fun d => d.writer_outputs)).length_eq,
    (hperm.flatMap_right (fun d => d.errors)).length_eq]
  exact segment_deltas_length_split wf1 gen segs 0

/-- C1: all-or-nothing commit at join — once every writing task has
terminated, if the accumulated error list is non-empty or the success count
differs from the planned segment count, the workflow is failed with the
concatenation of the tagged task errors and no segment output is persisted,
not even the successful ones; and the record's segment outputs become set
only when every task succeeded. -/
theorem commit_all_or_nothing (wf0 : AgenticPodcastWorkflow) (dout : DirectorOutput)
    (gen : Nat → Except String SegmentTranscript) (arrival : List WriteDelta)
    (h0 : wf0.writer_outputs = none)
    (hperm : List.Perm arrival
      (segment_deltas ((run_director wf0 (Except.ok dout)).1) gen dout.segments)) :
    ((accumulate arrival).errors ≠ [] ∨
        (accumulate arrival).writer_outputs.length ≠ dout.segments.length →
      (run_engine wf0 (Except.ok dout) arrival).final.current_stage = WorkflowStage.failed ∧
      (run_engine wf0 (Except.ok dout) arrival).final.status = WorkflowStatus.failed ∧
      (run_engine wf0 (Except.ok dout) arrival).final.error_message =
        some (String.intercalate "; " (accumulate arrival).errors) ∧
      (run_engine wf0 (Except.ok dout) arrival).final.writer_outputs = none) ∧
    ((run_engine wf0 (Except.ok dout) arrival).final.writer_outputs ≠ none →
      (accumulate arrival).errors = [] ∧
      (accumulate arrival).writer_outputs.length = dout.segments.length) := by
  have hsplit := accumulate_length_split _ gen dout.segments arrival hperm
  constructor
  · intro hcond
    have herr : (accumulate arrival).errors ≠ [] := by
      rcases hcond with h | h
      · exact h
      · intro hnil
        apply h
        rw [hnil] at hsplit
        simpa using hsplit
    have hk : dout.segments ≠ [] := by
      intro hnil
      rw [hnil] at hsplit
      simp only [List.length_nil] at hsplit
      exact herr (List.eq_nil_of_length_eq_zero (by omega))
    have hred : (run_engine wf0 (Except.ok dout) arrival).final =
        ((wf0.update_stage .director .in_progress).set_director_output dout).mark_failed
          (String.intercalate "; " (accumulate arrival).errors) := by
      rw [run_engine_ok_join _ _ _ hk]
      simp only [save_workflow, if_pos herr]
    rw [hred]
    exact ⟨rfl, rfl, rfl, h0⟩
  · intro hset
    by_cases hk : dout.segments = []
    · exfalso
      apply hset
      rw [run_engine_ok_nil _ _ _ hk]
      exact h0
    · have herr : (accumulate arrival).errors = [] := by
        by_contra he
        apply hset
        have hred : (run_engine wf0 (Except.ok dout) arrival).final =
            ((wf0.update_stage .director .in_progress).set_director_output dout).mark_failed
              (String.intercalate "; " (accumulate arrival).errors) := by
          rw [run_engine_ok_join _ _ _ hk]
          simp only [save_workflow, if_pos he]
        rw [hred]
        exact h0
      refine ⟨herr, ?_⟩
      by_cases ho : (accumulate arrival).writer_outputs = []
      · exfalso
        rw [herr, ho] at hsplit
        simp only [List.length_nil] at hsplit
        exact hk (List.eq_nil_of_length_eq_zero (by omega))
      · rw [herr] at hsplit
        simpa using hsplit

/-- Witness for C1 at the sample run whose second writing task fails: the run
fails and persists no output although the first task succeeded. -/
theorem commit_all_or_nothing_witness :
    freshWorkflow.writer_outputs = none ∧
    (accumulate deltasFailSecond.reverse).errors ≠ [] ∧
    (run_engine freshWorkflow (Except.ok sampleDirector) deltasFailSecond.reverse).final.status =
      WorkflowStatus.failed ∧
    (run_engine freshWorkflow (Except.ok sampleDirector) deltasFailSecond.reverse).final.writer_outputs =
      none := by
  have h := (commit_all_or_nothing freshWorkflow sampleDirector genFailSecond
    deltasFailSecond.reverse rfl (List.reverse_perm _)).1 (Or.inl (by decide))
  exact ⟨rfl, by decide, h.2.1, h.2.2.2⟩

/-- C2: for every plan and every completion order of the writing tasks, when
all tasks succeed the committed segment outputs equal the plan-order output
list — whose segment indices are exactly 0..k-1 in ascending order — never
the completion order, and the combined transcript concatenates them in that
plan order. -/
theorem transcript_plan_order (wf0 : AgenticPodcastWorkflow) (dout : DirectorOutput)
    (gen : Nat → Except String SegmentTranscript) (arrival : List WriteDelta)
    (planOuts : List WriterOutput)
    (hplan : planOuts = (segment_deltas ((run_director wf0 (Except.ok dout)).1) gen
      dout.segments).flatMap (fun d => d.writer_outputs))
    (hk : dout.segments ≠ [])
    (hgen : ∀ i, i < dout.segments.length → ∃ t, gen i = Except.ok t)
    (hperm : List.Perm arrival
      (segment_deltas ((run_director wf0 (Except.ok dout)).1) gen dout.segments)) :
    (run_engine wf0 (Except.ok dout) arrival).final.writer_outputs = some planOuts ∧
    planOuts.map (fun o => o.segment_index) = List.range dout.segments.length ∧
    (run_engine wf0 (Except.ok dout) arrival).final.current_stage = WorkflowStage.completed ∧
    (run_engine wf0 (Except.ok dout) arrival).final.status = WorkflowStatus.completed ∧
    (run_engine wf0 (Except.ok dout) arrival).final.get_full_transcript =
      planOuts.flatMap (fun o => o.transcript) := by
  have hsplit := accumulate_length_split _ gen dout.segments arrival hperm
  have hall := segment_deltas_all_ok ((run_director wf0 (Except.ok dout)).1) gen
    dout.segments 0 (by intro i _ h2; exact hgen i (by simpa using h2))
  have hkeys : planOuts.map (fun o => o.segment_index) = List.range dout.segments.length := by
    rw [List.range_eq_range', hplan]
    exact hall.2
  have hnodup : (planOuts.map (fun o => o.segment_index)).Nodup := by
    rw [hkeys]
    exact List.nodup_range _
  have hsorted : List.Pairwise byIndexLt planOuts := by
    have hlt : List.Pairwise (· < ·) (planOuts.map (fun o => o.segment_index)) := by
      rw [hkeys]
      exact List.pairwise_lt_range _
    show List.Pairwise (fun a b : WriterOutput => a.segment_index < b.segment_index) planOuts
    exact (List.pairwise_map).mp hlt
  have houts_perm : List.Perm ((accumulate arrival).writer_outputs) planOuts := by
    rw [accumulate_eq, hplan]
    exact hperm.flatMap_right _
  have hsort_eq : sortByIndex ((accumulate arrival).writer_outputs) = planOuts := by
    rw [sortByIndex_eq_of_perm houts_perm hnodup, sortByIndex_eq_self hsorted]
  have herrs : (accumulate arrival).errors = [] := by
    simp only [accumulate_eq]
    have hp := hperm.flatMap_right (fun d => d.errors)
    simp only [segment_deltas] at hp
    rw [hall.1] at hp
    exact hp.eq_nil
  have hne : (accumulate arrival).writer_outputs ≠ [] := by
    intro hnil
    rw [hnil, herrs] at hsplit
    exact hk ((List.length_eq_zero).mp (by simpa using hsplit.symm))
  have hred : (run_engine wf0 (Except.ok dout) arrival).final =
      (((wf0.update_stage .director .in_progress).set_director_output dout).set_writer_outputs
        (sortByIndex ((accumulate arrival).writer_outputs))).mark_completed := by
    rw [run_engine_ok_join _ _ _ hk]
    simp only [save_workflow, herrs, if_neg hne]
    simp
  refine ⟨?_, hkeys, ?_, ?_, ?_⟩
  · rw [hred, hsort_eq]
    rfl
  · rw [hred]
    rfl
  · rw [hred]
    rfl
  · rw [hred]
    show ((sortByIndex (sortByIndex ((accumulate arrival).writer_outputs))).flatMap
      (fun o => o.transcript)) = planOuts.flatMap (fun o => o.transcript)
    rw [hsort_eq, sortByIndex_eq_self hsorted]

/-- Witness for C2 at the sample run with reversed completion order. -/
theorem transcript_plan_order_witness :
    sampleDirector.segments ≠ [] ∧
    (run_engine freshWorkflow (Except.ok sampleDirector) deltasAllOk.reverse).final.writer_outputs =
      some (deltasAllOk.flatMap (fun d => d.writer_outputs)) := by
  refine ⟨by decide, ?_⟩
  exact (transcript_plan_order freshWorkflow sampleDirector genAllOk deltasAllOk.reverse
    (deltasAllOk.flatMap (fun d => d.writer_outputs)) rfl (by decide)
    (fun i _ => ⟨sampleTranscript, rfl⟩) (List.reverse_perm _)).1

/-- C10: the engine assigns the writing-task indices as exactly 0..k-1, each
once; each task's writer outputs carry the engine-assigned index of that
task; hence the successful outputs merged at the join carry pairwise-distinct
segment indices for every completion order. -/
theorem engine_index_uniqueness (wf0 : AgenticPodcastWorkflow) (dout : DirectorOutput)
    (gen : Nat → Except String SegmentTranscript) (arrival : List WriteDelta)
    (hperm : List.Perm arrival
      (segment_deltas ((run_director wf0 (Except.ok dout)).1) gen dout.segments)) :
    ((run_engine wf0 (Except.ok dout) arrival).launched.map (fun p => p.segment_index) =
      List.range dout.segments.length) ∧
    (∀ (j : Nat)
      (hj : j < (segment_deltas ((run_director wf0 (Except.ok dout)).1) gen
        dout.segments).length),
      ∀ o ∈ ((segment_deltas ((run_director wf0 (Except.ok dout)).1) gen
        dout.segments).get ⟨j, hj⟩).writer_outputs,
        o.segment_index = j) ∧
    ((accumulate arrival).writer_outputs.map (fun o => o.segment_index)).Nodup := by
  refine ⟨?_, ?_, ?_⟩
  · by_cases hk : dout.segments = []
    · rw [run_engine_ok_nil _ _ _ hk, hk]
      rfl
    · rw [run_engine_ok_join _ _ _ hk, List.range_eq_range']
      exact sends_from_keys dout.segments 0
  · intro j hj o ho
    have h := segment_deltas_from_get_index ((run_director wf0 (Except.ok dout)).1) gen
      dout.segments 0 j hj o ho
    simpa using h
  · have hpair := (outputKeys_strict_mono ((run_director wf0 (Except.ok dout)).1) gen
      dout.segments 0).1
    have hnod : (outputKeys (segment_deltas_from ((run_director wf0 (Except.ok dout)).1)
        gen 0 dout.segments)).Nodup :=
      hpair.imp (fun h => Nat.ne_of_lt h)
    have hmap : List.Perm ((accumulate arrival).writer_outputs.map (fun o => o.segment_index))
        (outputKeys (segment_deltas_from ((run_director wf0 (Except.ok dout)).1) gen 0
          dout.segments)) := by
      simp only [accumulate_eq]
      exact (hperm.flatMap_right (fun d => d.writer_outputs)).map _
    exact (hmap.nodup_iff).mpr hnod

/-- Witness for C10 at the sample run with one failing task and reversed
completion order. -/
theorem engine_index_uniqueness_witness :
    ((run_engine freshWorkflow (Except.ok sampleDirector) deltasFailSecond.reverse).launched.map
      (fun p => p.segment_index) = List.range sampleDirector.segments.length) ∧
    ((accumulate deltasFailSecond.reverse).writer_outputs.map
      (fun o => o.segment_index)).Nodup := by
  have h := engine_index_uniqueness freshWorkflow sampleDirector genFailSecond
    deltasFailSecond.reverse (List.reverse_perm _)
  exact ⟨h.1, h.2.2⟩

/-- A sample output with segment index 0. -/
def outA : WriterOutput :=
  { segment_index := 0, segment_name := "a", transcript := [], metadata := none }

/-- A sample output with segment index 1. -/
def outB : WriterOutput :=
  { segment_index := 1, segment_name := "b", transcript := [], metadata := none }

/-- A sample output with segment index 2. -/
def outC : WriterOutput :=
  { segment_index := 2, segment_name := "c", transcript := [], metadata := none }

/-- C7 counterexample: the result-accumulator merge is list concatenation,
which is not commutative — merging outcome set {A,B} then {C} yields a
different accumulated value than merging {C} then {A,B}, even for
disjoint-index successes. -/
theorem merge_not_commutative_cex :
    merge_delta { writer_outputs := [outA, outB], errors := [] }
        { writer_outputs := [outC], errors := [] } ≠
      merge_delta { writer_outputs := [outC], errors := [] }
        { writer_outputs := [outA, outB], errors := [] } := by
  decide

/-- C7 (amended): the accumulator merge is associative but only the committed
value is completion-order invariant — for disjoint-index successes the
commit-time sort of the merged outputs is the same whichever side arrives
first, so completion order never affects the committed value. -/
theorem merge_assoc_and_commit_order_invariant :
    (∀ a b c : WriteDelta,
      merge_delta (merge_delta a b) c = merge_delta a (merge_delta b c)) ∧
    (∀ a b : WriteDelta,
      (((merge_delta a b).writer_outputs).map (fun o => o.segment_index)).Nodup →
      sortByIndex ((merge_delta a b).writer_outputs) =
        sortByIndex ((merge_delta b a).writer_outputs)) := by
  constructor
  · intro a b c
    simp [merge_delta]
  · intro a b hn
    have hp : List.Perm ((merge_delta b a).writer_outputs)
        ((merge_delta a b).writer_outputs) := List.perm_append_comm
    exact (sortByIndex_eq_of_perm hp hn).symm

/-- Witness for the amended C7 at concrete disjoint-index outcomes. -/
theorem merge_assoc_and_commit_order_invariant_witness :
    (((merge_delta { writer_outputs := [outA, outB], errors := [] }
        { writer_outputs := [outC], errors := [] }).writer_outputs).map
        (fun o => o.segment_index)).Nodup ∧
    sortByIndex ((merge_delta { writer_outputs := [outA, outB], errors := [] }
        { writer_outputs := [outC], errors := [] }).writer_outputs) =
      sortByIndex ((merge_delta { writer_outputs := [outC], errors := [] }
        { writer_outputs := [outA, outB], errors := [] }).writer_outputs) :=
  ⟨by decide, merge_assoc_and_commit_order_invariant.2
    { writer_outputs := [outA, outB], errors := [] }
    { writer_outputs := [outC], errors := [] } (by decide)⟩

/-- A workflow record already in the completed terminal state. -/
def completedWorkflow : AgenticPodcastWorkflow :=
  { freshWorkflow with status := .completed, current_stage := .completed }

/-- C8 counterexample: the transition operations do not guard terminal
states — applying `update_stage` or `mark_failed` to a completed record
transitions it out of the terminal state and mutates its fields. -/
theorem terminal_not_guarded_cex :
    completedWorkflow.status = WorkflowStatus.completed ∧
    (completedWorkflow.update_stage WorkflowStage.director
      WorkflowStatus.in_progress).status = WorkflowStatus.in_progress ∧
    (completedWorkflow.update_stage WorkflowStage.director
      WorkflowStatus.in_progress).current_stage = WorkflowStage.director ∧
    (completedWorkflow.mark_failed "late failure").status = WorkflowStatus.failed ∧
    (completedWorkflow.mark_failed "late failure").error_message = some "late failure" :=
  ⟨rfl, rfl, rfl, rfl, rfl⟩

/-- C8 (amended): terminal immutability is not enforced by the transition
operations themselves; within one engine run the terminal transition, when it
happens, is the last mutation, and `completed` and `failed` are mutually
exclusive (stage, status) pairs on every run outcome. A run whose planning
fails ends failed; a run whose planning succeeds with a non-empty plan ends
completed or failed; but a run whose planning succeeds with an empty plan
dispatches no writer task, the join never fires, and the record halts
non-terminal at stage `director`, status `in_progress`. -/
theorem run_terminal_consistency (wf0 : AgenticPodcastWorkflow)
    (directorResult : Except String DirectorOutput) (arrival : List WriteDelta) :
    ((run_engine wf0 directorResult arrival).final.status = WorkflowStatus.completed ↔
      (run_engine wf0 directorResult arrival).final.current_stage = WorkflowStage.completed) ∧
    ((run_engine wf0 directorResult arrival).final.status = WorkflowStatus.failed ↔
      (run_engine wf0 directorResult arrival).final.current_stage = WorkflowStage.failed) ∧
    (∀ e, directorResult = Except.error e →
      (run_engine wf0 directorResult arrival).final.status = WorkflowStatus.failed) ∧
    (∀ dout, directorResult = Except.ok dout → dout.segments ≠ [] →
      ((run_engine wf0 directorResult arrival).final.status = WorkflowStatus.completed ∨
        (run_engine wf0 directorResult arrival).final.status = WorkflowStatus.failed)) ∧
    (∀ dout, directorResult = Except.ok dout → dout.segments = [] →
      (run_engine wf0 directorResult arrival).final.status = WorkflowStatus.in_progress ∧
      (run_engine wf0 directorResult arrival).final.current_stage = WorkflowStage.director) := by
  cases directorResult with
  | error e =>
      rw [run_engine_error]
      refine ⟨?_, ?_, ?_, ?_, ?_⟩
      · simp [AgenticPodcastWorkflow.mark_failed]
      · simp [AgenticPodcastWorkflow.mark_failed]
      · intro e2 _
        rfl
      · intro dout2 hd
        exact absurd hd (by simp)
      · intro dout2 hd
        exact absurd hd (by simp)
  | ok dout =>
      by_cases hk : dout.segments = []
      · rw [run_engine_ok_nil _ _ _ hk]
        refine ⟨?_, ?_, ?_, ?_, ?_⟩
        · simp [AgenticPodcastWorkflow.set_director_output, AgenticPodcastWorkflow.update_stage]
        · simp [AgenticPodcastWorkflow.set_director_output, AgenticPodcastWorkflow.update_stage]
        · intro e2 hd
          exact absurd hd (by simp)
        · intro dout2 hd hne
          injection hd with hd2
          rw [← hd2] at hne
          exact absurd hk hne
        · intro dout2 _ _
          exact ⟨rfl, rfl⟩
      · rw [run_engine_ok_join _ _ _ hk]
        refine ⟨?_, ?_, ?_, ?_, ?_⟩
        · simp only [save_workflow]
          split_ifs <;>
            simp [AgenticPodcastWorkflow.mark_failed, AgenticPodcastWorkflow.mark_completed,
              AgenticPodcastWorkflow.set_writer_outputs]
        · simp only [save_workflow]
          split_ifs <;>
            simp [AgenticPodcastWorkflow.mark_failed, AgenticPodcastWorkflow.mark_completed,
              AgenticPodcastWorkflow.set_writer_outputs]
        · intro e2 hd
          exact absurd hd (by simp)
        · intro dout2 _ _
          simp only [save_workflow]
          split_ifs <;>
            simp [AgenticPodcastWorkflow.mark_failed, AgenticPodcastWorkflow.mark_completed,
              AgenticPodcastWorkflow.set_writer_outputs]
        · intro dout2 hd hnil
          injection hd with hd2
          rw [← hd2] at hnil
          exact absurd hnil hk

/-- A director output whose plan is empty. -/
def emptyDirector : DirectorOutput :=
  { reasoning := "r", segments := [], num_segments := 0 }

/-- Witness for the amended C8: a non-empty-plan run ends terminal; an
empty-plan run halts non-terminal at stage director, status in_progress. -/
theorem run_terminal_consistency_witness :
    ((run_engine freshWorkflow (Except.ok sampleDirector) deltasAllOk).final.status =
        WorkflowStatus.completed ∨
      (run_engine freshWorkflow (Except.ok sampleDirector) deltasAllOk).final.status =
        WorkflowStatus.failed) ∧
    (run_engine freshWorkflow (Except.ok emptyDirector) []).final.status =
      WorkflowStatus.in_progress ∧
    (run_engine freshWorkflow (Except.ok emptyDirector) []).final.current_stage =
      WorkflowStage.director :=
  ⟨(run_terminal_consistency freshWorkflow (Except.ok sampleDirector)
      deltasAllOk).2.2.2.1 sampleDirector rfl (by decide),
    (run_terminal_consistency freshWorkflow (Except.ok emptyDirector)
      []).2.2.2.2 emptyDirector rfl rfl⟩

/-- A creation request carrying both direct content and a notebook reference. -/
def reqBoth : AgenticWorkflowRequest :=
  { episode_profile := "tech", episode_name := "ep1", content := some "direct text"
    notebook_id := some "nb1", briefing_suffix := none, num_segments := none }

/-- A creation request carrying neither direct content nor a notebook reference. -/
def reqNeither : AgenticWorkflowRequest :=
  { reqBoth with content := none, notebook_id := none }

/-- A sample episode profile. -/
def sampleEpisodeProfile : EpisodeProfile :=
  { name := "tech", speaker_config := "duo", default_briefing := "base briefing"
    num_segments := 3 }

/-- A sample speaker profile. -/
def sampleSpeakerProfile : SpeakerProfile :=
  { name := "duo" }

/-- C9 counterexample: a request with both direct content and a non-empty
notebook reference is not rejected — creation proceeds, persists a record,
and uses the direct content, so "exactly one source must be non-empty" fails
on the code. -/
theorem content_validation_both_cex :
    truthyStr reqBoth.content = true ∧
    truthyStr reqBoth.notebook_id = true ∧
    (create_workflow reqBoth (some sampleEpisodeProfile) (some sampleSpeakerProfile)
      "nb text").1.length = 1 ∧
    (create_workflow reqBoth (some sampleEpisodeProfile) (some sampleSpeakerProfile)
      "nb text").2.isOk = true ∧
    ∀ w ∈ (create_workflow reqBoth (some sampleEpisodeProfile) (some sampleSpeakerProfile)
      "nb text").1, w.content = some "direct text" := by
  refine ⟨rfl, rfl, rfl, rfl, ?_⟩
  decide

/-- C9 (amended): at least one of direct content and a content reference must
be truthy; a request with neither is rejected with the validation error
before any record is persisted (with both present, direct content wins and
creation proceeds). -/
theorem content_validation_neither (req : AgenticWorkflowRequest)
    (ep : EpisodeProfile) (sp : SpeakerProfile) (notebook_content : String)
    (hc : truthyStr req.content = false) (hn : truthyStr req.notebook_id = false) :
    create_workflow req (some ep) (some sp) notebook_content =
      ([], Except.error "Either 'content' or 'notebook_id' must be provided") := by
  simp [create_workflow, resolve_content, hc, hn]

/-- Witness for the amended C9 at a concrete sourceless request. -/
theorem content_validation_neither_witness :
    truthyStr reqNeither.content = false ∧
    truthyStr reqNeither.notebook_id = false ∧
    create_workflow reqNeither (some sampleEpisodeProfile) (some sampleSpeakerProfile)
        "nb text" =
      ([], Except.error "Either 'content' or 'notebook_id' must be provided") :=
  ⟨rfl, rfl, content_validation_neither reqNeither sampleEpisodeProfile
    sampleSpeakerProfile "nb text" rfl rfl⟩
